import Mathlib

/-!
Verification of the godfather-backend game server against its
natural-language specification.  The Python sources are shallowly
embedded: spreadsheet rows become Lean structures, route handlers become
pure functions from an explicit database value to a result paired with
the updated database, and dynamic spreadsheet cell values become an
inductive `Value` type.  Machine floats of the source are modelled by
exact rationals; the Python built-in `round` (banker rounding) is
modelled by `round_half_even` on rationals.
-/

namespace Godfather

/-- A dynamic spreadsheet cell value as the Python code sees it:
either a string or a native boolean (gspread returns both, depending on
the sheet formatting) or a number. -/
inductive Value where
  | str : String → Value
  | boolean : Bool → Value
  | num : ℚ → Value
deriving DecidableEq, Repr

/-- Python truthiness of a `Value` (empty string, `False` and `0` are
falsy). -/
def Value.truthy : Value → Bool
  | .str s => s ≠ ""
  | .boolean b => b
  | .num q => q ≠ 0

/-- Python truthiness of an optional string (`None` and `""` are falsy). -/
def strTruthy (o : Option String) : Bool :=
  (o.getD "") ≠ ""

/-! ## Score Calculator (src/utils/scoring.py) -/

/-- Round a rational to the nearest integer, ties to even — the
behaviour of the Python built-in `round` on an exact value. -/
def round_half_even (q : ℚ) : ℤ :=
  let n : ℤ := ⌊q⌋
  let f : ℚ := q - n
  if f < 1/2 then n
  else if 1/2 < f then n + 1
  else if Even n then n else n + 1

/-- `round(x, 2)` of the Python source: round to two decimal places. -/
def pyRound2 (q : ℚ) : ℚ :=
  (round_half_even (q * 100) : ℚ) / 100

/-- `calculate_individual_score` from src/utils/scoring.py:
`(money * 0.4) + (missions_completed * 40) + (puzzles_solved * 30) +
(kills_made * 100) + (influence_points * 0.2)`, rounded to 2 decimals. -/
def calculate_individual_score (money : ℚ) (missions_completed : ℤ)
    (puzzles_solved : ℤ) (kills_made : ℤ) (influence_points : ℚ) : ℚ :=
  pyRound2 ((money * 0.4) + (missions_completed * 40) +
    (puzzles_solved * 30) + (kills_made * 100) + (influence_points * 0.2))

/-- The stat fields `recalculate_player_score` reads from a player dict;
`none` models an absent key, read through `dict.get(key, 0)`. -/
structure StatsDict where
  balance : Option ℚ
  missions_completed : Option ℤ
  puzzles_solved : Option ℤ
  kills_made : Option ℤ
  influence_points : Option ℚ
deriving DecidableEq, Repr

/-- `recalculate_player_score` from src/utils/scoring.py: every missing
stat field defaults to zero via `player.get(field, 0)`. -/
def recalculate_player_score (p : StatsDict) : ℚ :=
  calculate_individual_score (p.balance.getD 0) (p.missions_completed.getD 0)
    (p.puzzles_solved.getD 0) (p.kills_made.getD 0) (p.influence_points.getD 0)

/-! ## Black-market gate (src/routes/blackmarket.py) -/

/-- A civil wall-clock instant in the fixed Asia/Kolkata timezone. -/
structure Time where
  hour : ℕ
  minute : ℕ
  second : ℕ
deriving DecidableEq, Repr

/-- A valid civil time of day. -/
def Time.valid (t : Time) : Prop :=
  t.hour < 24 ∧ t.minute < 60 ∧ t.second < 60

instance (t : Time) : Decidable t.valid := by
  unfold Time.valid
  exact inferInstance

/-- Seconds since midnight of a civil time. -/
def Time.secondsOfDay (t : Time) : ℕ :=
  3600 * t.hour + 60 * t.minute + t.second

/-- `is_market_open` from src/routes/blackmarket.py:
`(hour == 23 and minute >= 11) or (hour == 0 and minute < 11)`. -/
def is_market_open (t : Time) : Bool :=
  (t.hour == 23 && t.minute ≥ 11) || (t.hour == 0 && t.minute < 11)

/-! ## Token Service (src/auth_service.py)

JWT signing, parsing and expiry are input/output against real time and a
secret key; the embedding works on the decoded claim dictionary, which
is what all the type-checking logic of `decode_token` inspects.  A
missing claim is `none`. -/

/-- The claim dictionary of a session token.  The `exp` claim (pure
wall-clock input/output) is not modelled. -/
structure TokenPayload where
  player_id : Option String
  email : Option String
  role : Option String
  family : Option String
  type : Option String
deriving DecidableEq, Repr

/-- Result of `decode_token`: the decoded payload, or an HTTPException
with a status code and a detail string. -/
inductive DecodeResult where
  | ok (payload : TokenPayload)
  | err (status : ℕ) (detail : String)
deriving DecidableEq, Repr

/-- `create_access_token` from src/auth_service.py:
`to_encode.update(\x7b"exp": expire, "type": "access"\x7d)`. -/
def create_access_token (data : TokenPayload) : TokenPayload :=
  { data with type := some "access" }

/-- `create_refresh_token` from src/auth_service.py:
`to_encode.update(\x7b"exp": expire, "type": "refresh"\x7d)`. -/
def create_refresh_token (data : TokenPayload) : TokenPayload :=
  { data with type := some "refresh" }

/-- The type-verification logic of `decode_token` from
src/auth_service.py, applied to an already-parsed payload:
`if token_type and payload.get("type") and payload.get("type") != token_type`
raises a 401; otherwise the payload is returned. -/
def decode_token (payload : TokenPayload) (token_type : Option String) :
    DecodeResult :=
  if strTruthy token_type && strTruthy payload.type &&
      payload.type != token_type then
    .err 401 ("Invalid token type. Expected " ++ token_type.getD "" ++ " token")
  else
    .ok payload

/-- `get_current_user_from_token` from src/auth_service.py: validates
access tokens only. -/
def get_current_user_from_token (payload : TokenPayload) : DecodeResult :=
  decode_token payload (some "access")

/-! ## Player records (rows of the players sheet) -/

/-- A row of the players sheet as the Python routes read it.  The
`items` cell (a JSON-serialized list) is modelled in parsed form; the
`alive` cell keeps the dynamic `Value` encoding, `none` meaning a
missing key. -/
structure Player where
  player_id : String
  name : String
  email : String
  password : String
  role : String
  assigned_role : String
  family : String
  alive : Option Value
  balance : ℚ
  registered : String
  items : List String
  missions_completed : ℤ
  puzzles_solved : ℤ
  kills_made : ℤ
  influence_points : ℚ
  individual_score : ℚ
  trades_completed : ℤ
deriving DecidableEq, Repr

/-- A string-cell view of the items list, standing for its JSON dump. -/
def itemsCell (items : List String) : Value :=
  .str (String.intercalate "," items)

/-- The player row as a Python dict, as `player.items()` enumerates it
in src/routes/auth.py.  A missing `alive` key contributes no entry. -/
def Player.toDict (p : Player) : List (String × Value) :=
  [("player_id", .str p.player_id), ("name", .str p.name),
   ("email", .str p.email), ("password", .str p.password),
   ("role", .str p.role), ("assigned_role", .str p.assigned_role),
   ("family", .str p.family)] ++
  (match p.alive with | some v => [("alive", v)] | none => []) ++
  [("balance", .num p.balance), ("registered", .str p.registered),
   ("items", itemsCell p.items),
   ("missions_completed", .num p.missions_completed),
   ("puzzles_solved", .num p.puzzles_solved),
   ("kills_made", .num p.kills_made),
   ("influence_points", .num p.influence_points),
   ("individual_score", .num p.individual_score),
   ("trades_completed", .num p.trades_completed)]

/-- The stat-field view of a player row, fed to
`recalculate_player_score` (every key is present on a real row). -/
def Player.stats (p : Player) : StatsDict :=
  ⟨some p.balance, some p.missions_completed, some p.puzzles_solved,
   some p.kills_made, some p.influence_points⟩

/-- Python truthiness of `player.get("alive", True)` — the aliveness
check used by blackmarket purchase and money transfer
(`if not player.get("alive", True)` rejects). -/
def alive_truthy (p : Player) : Bool :=
  (p.alive.getD (.boolean true)).truthy

/-- The eliminated-player condition of login (src/routes/auth.py line
127): `player.get("alive") == "FALSE" or not player.get("alive", True)`. -/
def login_alive_reject (p : Player) : Bool :=
  (p.alive == some (Value.str "FALSE")) || !(alive_truthy p)

/-- `get_player_by_email` from src/utils/google_client.py: first row
whose email cell equals the argument. -/
def get_player_by_email (db : List Player) (email : String) : Option Player :=
  db.find? (fun p => p.email == email)

/-- `get_player_by_id` from src/utils/google_client.py: first row whose
player_id cell equals the argument. -/
def get_player_by_id (db : List Player) (player_id : String) : Option Player :=
  db.find? (fun p => p.player_id == player_id)

/-- A field map passed to `update_player` / `update_player_by_email`;
`none` means the key is absent from the update dict.  Only the keys the
verified routes actually write are listed. -/
structure FieldUpdates where
  player_id : Option String
  role : Option String
  registered : Option String
  balance : Option ℚ
  individual_score : Option ℚ
  items : Option (List String)
  trades_completed : Option ℤ
deriving DecidableEq, Repr

/-- The empty field map. -/
def noUpdates : FieldUpdates :=
  ⟨none, none, none, none, none, none, none⟩

/-- Write the present keys of a field map into a row (the per-column
`update_cell` loop of src/utils/google_client.py). -/
def applyUpdates (p : Player) (u : FieldUpdates) : Player :=
  { p with
    player_id := u.player_id.getD p.player_id,
    role := u.role.getD p.role,
    registered := u.registered.getD p.registered,
    balance := u.balance.getD p.balance,
    individual_score := u.individual_score.getD p.individual_score,
    items := u.items.getD p.items,
    trades_completed := u.trades_completed.getD p.trades_completed }

/-- `update_player_by_email` from src/utils/google_client.py: update the
first row whose email matches; a miss leaves the sheet unchanged. -/
def update_player_by_email (db : List Player) (email : String)
    (u : FieldUpdates) : List Player :=
  match db with
  | [] => []
  | p :: rest =>
    if p.email == email then applyUpdates p u :: rest
    else p :: update_player_by_email rest email u

/-- `update_player` from src/utils/google_client.py: update the first
row whose player_id matches; a miss leaves the sheet unchanged. -/
def update_player (db : List Player) (player_id : String)
    (u : FieldUpdates) : List Player :=
  match db with
  | [] => []
  | p :: rest =>
    if p.player_id == player_id then applyUpdates p u :: rest
    else p :: update_player rest player_id u

/-! ## Login flow (src/routes/auth.py) -/

/-- Default of `os.getenv("ADMIN_USERNAME", ...)`. -/
def ADMIN_USERNAME : String := "varun.mahurkar@oloid.ai"

/-- Default of `os.getenv("ADMIN_PASSWORD", ...)`. -/
def ADMIN_PASSWORD : String := "godfatheradmin@12345varun"

/-- The body of `POST /auth/login`; optional fields model absent JSON
keys (`None`). -/
structure LoginRequest where
  email : Option String
  username : Option String
  password : String
  role : Option String
deriving DecidableEq, Repr

/-- A token string of the login response: the empty string placeholder
of the first-login response, or a signed JWT with the given claims. -/
inductive TokenStr where
  | empty
  | signed (payload : TokenPayload)
deriving DecidableEq, Repr

/-- The success body of `POST /auth/login`; `refresh_token = none`
models the response dict lacking the key entirely. -/
structure LoginResponse where
  access_token : TokenStr
  refresh_token : Option TokenStr
  player : List (String × Value)
  is_first_login : Bool
  assigned_role : Option String
deriving DecidableEq, Repr

/-- Result of `POST /auth/login`. -/
inductive LoginResult where
  | err (status : ℕ) (detail : String)
  | ok (resp : LoginResponse)
deriving DecidableEq, Repr

/-- The synthetic admin player profile returned by the admin login
shortcut (src/routes/auth.py lines 91-100). -/
def admin_player : List (String × Value) :=
  [("player_id", .str "admin-uuid"), ("name", .str "Varun Mahurkar (Godfather)"),
   ("email", .str ADMIN_USERNAME), ("role", .str "Godfather"),
   ("family", .str "Administration"), ("balance", .num 999999999),
   ("alive", .boolean true), ("is_admin", .boolean true)]

/-- The shared tail of the login handler (src/routes/auth.py lines
199-219): build the token claims, sign an access and a refresh token,
and strip the password key from the player dict of the response. -/
def issue_login_response (player : Player) (user_email : String) :
    LoginResult :=
  let token_data : TokenPayload :=
    { player_id := some player.player_id,
      email := some (if player.email == "" then user_email else player.email),
      role := some player.role,
      family := some player.family,
      type := none }
  .ok { access_token := .signed (create_access_token token_data),
        refresh_token := some (.signed (create_refresh_token token_data)),
        player := player.toDict.filter (fun kv => kv.1 != "password"),
        is_first_login := false,
        assigned_role := none }

/-- The admin shortcut of the login handler (src/routes/auth.py lines
64-108): fixed password, forced Godfather role, synthetic profile. -/
def login_admin (db : List Player) (req : LoginRequest) :
    LoginResult × List Player :=
  if req.password != ADMIN_PASSWORD then
    (.err 401 "Invalid admin credentials", db)
  else if strTruthy req.role && req.role != some "Godfather" then
    (.err 403 "Admin must login with Godfather role", db)
  else
    let token_data : TokenPayload :=
      { player_id := some "admin-uuid", email := some ADMIN_USERNAME,
        role := some "Godfather", family := none, type := none }
    (.ok { access_token := .signed (create_access_token token_data),
           refresh_token := some (.signed (create_refresh_token token_data)),
           player := admin_player, is_first_login := false,
           assigned_role := none }, db)

/-- The first-login block of the login handler (src/routes/auth.py lines
144-179): role prompt, role verification, identifier generation and
persistence, and the data refresh. -/
def login_claim (db : List Player) (new_uuid : String) (req : LoginRequest)
    (ue : String) (player : Player) : LoginResult × List Player :=
  if !strTruthy req.role then
    (.ok { access_token := .empty, refresh_token := none, player := [],
           is_first_login := true,
           assigned_role := some player.assigned_role }, db)
  else if req.role != some player.assigned_role then
    (.err 403 ("You are assigned the role " ++ player.assigned_role ++
      ". Please select the correct role."), db)
  else
    let db2 := update_player_by_email db ue
      { noUpdates with
        player_id := some new_uuid,
        role := some player.assigned_role,
        registered := some "TRUE" }
    match get_player_by_email db2 ue with
    | none => (.err 500 "Internal Server Error", db2)
    | some refreshed => (issue_login_response refreshed ue, db2)

/-- The found-player part of the login handler (src/routes/auth.py lines
119-219): password, aliveness and assignment gates, then either the
first-login block or the returning-player role verification. -/
def login_found (db : List Player) (new_uuid : String) (req : LoginRequest)
    (ue : String) (player : Player) : LoginResult × List Player :=
  if player.password != req.password then
    (.err 401 "Invalid email or password", db)
  else if login_alive_reject player then
    (.err 403 "Your character has been eliminated from the game", db)
  else if player.assigned_role == "" then
    (.err 403 "Your account is pending admin approval. Please contact the admin to assign you a family and role.", db)
  else if player.player_id == "" then
    login_claim db new_uuid req ue player
  else
    if !strTruthy req.role then
      (.err 400 "Role selection is required for login", db)
    else if req.role != some player.role then
      (.err 403 ("Role mismatch. You are registered as " ++ player.role ++
        ". Please select the correct role."), db)
    else
      (issue_login_response player ue, db)

/-- The login handler of src/routes/auth.py, over an explicit players
sheet.  `new_uuid` is the identifier `str(uuid.uuid4())` would produce.
Returns the HTTP result together with the updated sheet.  The scoreboard
sheet touched by `update_score` is not modelled. -/
def login (db : List Player) (new_uuid : String) (req : LoginRequest) :
    LoginResult × List Player :=
  let user_email := if strTruthy req.email then req.email else req.username
  if !strTruthy user_email then
    (.err 400 "Email or username is required", db)
  else if user_email.getD "" == ADMIN_USERNAME then
    login_admin db req
  else
    match get_player_by_email db (user_email.getD "") with
    | none =>
      (.err 401 "Invalid email or password. Please check your credentials.", db)
    | some player =>
      login_found db new_uuid req (user_email.getD "") player

/-- Result of `GET /auth/verify`: a valid token with a player snapshot,
a valid token with only the player_id echoed back, or a 401. -/
inductive VerifyResult where
  | okPlayer (player : List (String × Value))
  | okId (player_id : Option String)
  | err (status : ℕ) (detail : String)
deriving DecidableEq, Repr

/-- The `GET /auth/verify` handler of src/routes/auth.py, applied to an
already-parsed token payload: decode with no expected kind, then attach
the password-stripped player snapshot when the id resolves. -/
def verify_token (db : List Player) (payload : TokenPayload) : VerifyResult :=
  match decode_token payload none with
  | .err s d => .err s d
  | .ok payload2 =>
    let player_id := payload2.player_id
    if strTruthy player_id && player_id != some "admin-uuid" then
      match get_player_by_id db (player_id.getD "") with
      | some player =>
        .okPlayer (player.toDict.filter (fun kv => kv.1 != "password"))
      | none => .okId player_id
    else .okId player_id

/-! ## Black market (src/routes/blackmarket.py) -/

/-- A row of the market sheet. -/
structure Offer where
  offer_id : ℤ
  item_name : String
  description : String
  price : ℚ
  quantity_available : ℤ
deriving DecidableEq, Repr

/-- Result of `POST /blackmarket/purchase/` — on success the handler
writes `new_balance`, the appended item list and the recomputed score to
the players sheet and decrements the offer quantity cell; the written
values are carried by the `ok` constructor. -/
inductive PurchaseResult where
  | err (status : ℕ) (detail : String)
  | ok (item_name : String) (price : ℚ) (new_balance : ℚ)
      (new_items : List String) (new_quantity : ℤ) (new_score : ℚ)
deriving DecidableEq, Repr

/-- The `purchase_offer` handler of src/routes/blackmarket.py: market
gate, aliveness gate, offer lookup, stock and funds checks, then the
purchase. -/
def purchase_offer (t : Time) (player : Player) (offers : List Offer)
    (offer_id : ℤ) : PurchaseResult :=
  if !is_market_open t then
    .err 403 "Black Market is closed. Opens at 11:11 PM IST"
  else if !alive_truthy player then
    .err 403 "Dead players cannot make purchases"
  else
    match offers.find? (fun o => o.offer_id == offer_id) with
    | none => .err 404 "Offer not found"
    | some offer =>
      if offer.quantity_available ≤ 0 then
        .err 400 "Item out of stock"
      else if player.balance < offer.price then
        .err 400 "Insufficient funds"
      else
        let new_balance := player.balance - offer.price
        let current_items := player.items ++ [offer.item_name]
        let updated := { player with balance := new_balance, items := current_items }
        let new_score := recalculate_player_score updated.stats
        .ok offer.item_name offer.price new_balance current_items
          (offer.quantity_available - 1) new_score

/-- One formatted offer of the `GET /blackmarket/offers` response. -/
structure FormattedOffer where
  offer_id : ℤ
  item_name : String
  description : String
  price : ℚ
  quantity_available : ℤ
  available : Bool
deriving DecidableEq, Repr

/-- The `GET /blackmarket/offers` response body. -/
structure OffersResponse where
  offers : List FormattedOffer
  market_open : Bool
  total : ℕ
deriving DecidableEq, Repr

/-- The `get_offers` handler of src/routes/blackmarket.py: offers are
always listed, whatever the market gate says. -/
def get_offers (t : Time) (offers : List Offer) : OffersResponse :=
  { offers := offers.map (fun o =>
      { offer_id := o.offer_id, item_name := o.item_name,
        description := o.description, price := o.price,
        quantity_available := o.quantity_available,
        available := decide ((0:ℤ) < o.quantity_available) }),
    market_open := is_market_open t,
    total := offers.length }

/-! ## Money transfer (src/routes/trades.py, src/utils/google_client.py) -/

/-- Result of `POST /trades/transfer-money`. -/
inductive TransferResult where
  | err (status : ℕ) (detail : String)
  | ok (from_name : String) (to_name : String) (amount : ℚ)
      (new_balance : ℚ)
deriving DecidableEq, Repr

/-- `add_trade` from src/utils/google_client.py: re-reads both rows and
moves the amount again (on top of what `transfer_money` already wrote),
then bumps the trades_completed counter of the receiver. -/
def add_trade (db : List Player) (from_player to_player : String)
    (amount : ℚ) : List Player :=
  let db1 :=
    match get_player_by_id db from_player with
    | some sender =>
      update_player db from_player
        { noUpdates with balance := some (sender.balance - amount) }
    | none => db
  match get_player_by_id db1 to_player with
  | some receiver =>
    let db2 := update_player db1 to_player
      { noUpdates with balance := some (receiver.balance + amount) }
    update_player db2 to_player
      { noUpdates with trades_completed := some (receiver.trades_completed + 1) }
  | none => db1

/-- The `transfer_money` handler of src/routes/trades.py over an
explicit players sheet: amount, sender, recipient and aliveness gates,
the funds check, then the balance/score writes and the trade record. -/
def transfer_money (db : List Player) (current_player_id to_player_id : String)
    (amount : ℚ) : TransferResult × List Player :=
  if amount ≤ 0 then (.err 400 "Amount must be greater than 0", db)
  else
    match get_player_by_id db current_player_id with
    | none => (.err 404 "Sender not found", db)
    | some from_player =>
      if !alive_truthy from_player then
        (.err 403 "Dead players cannot make transfers", db)
      else
        match get_player_by_id db to_player_id with
        | none => (.err 404 "Recipient not found", db)
        | some to_player =>
          if !alive_truthy to_player then
            (.err 400 "Cannot transfer to eliminated players", db)
          else if from_player.balance < amount then
            (.err 400 "Insufficient funds", db)
          else
            let new_sender_balance := from_player.balance - amount
            let new_recipient_balance := to_player.balance + amount
            let sender2 := { from_player with balance := new_sender_balance }
            let sender_score := recalculate_player_score sender2.stats
            let db1 := update_player db current_player_id
              { noUpdates with
                balance := some new_sender_balance,
                individual_score := some sender_score }
            let recipient2 := { to_player with balance := new_recipient_balance }
            let recipient_score := recalculate_player_score recipient2.stats
            let db2 := update_player db1 to_player_id
              { noUpdates with
                balance := some new_recipient_balance,
                individual_score := some recipient_score }
            let db3 := add_trade db2 current_player_id to_player_id amount
            (.ok from_player.name to_player.name amount new_sender_balance, db3)

/-! ## Mission visibility (src/utils/google_client.py) -/

/-- A row of the missions sheet; `none` on the optional fields models a
key the `dict.get(key, default)` calls would default. -/
structure Mission where
  mission_id : ℤ
  title : String
  visibility : Option String
  assigned_family : Option String
  assigned_role : Option String
  assigned_to : String
  status : String
  day : ℤ
deriving DecidableEq, Repr

/-- The per-mission condition of the visibility loop in
`get_missions_for_player` (src/utils/google_client.py lines 221-241). -/
def mission_visible (mission : Mission) (player_id role family : String) :
    Bool :=
  let visibility := mission.visibility.getD "public"
  let assigned_family := mission.assigned_family.getD "all"
  let assigned_role := mission.assigned_role.getD "all"
  if visibility == "public" then
    (assigned_family == "all" || assigned_family == family) &&
    (assigned_role == "all" || assigned_role == role)
  else if visibility == "private" then
    mission.assigned_to == player_id
  else if visibility == "family" then
    assigned_family == family
  else false

/-- `get_missions_for_player` from src/utils/google_client.py: admins
see every mission, everyone else sees the missions the visibility loop
keeps, in sheet order. -/
def get_missions_for_player (missions : List Mission) (player_id : String)
    (role : String) (family : String) (is_admin : Bool) : List Mission :=
  if is_admin then missions
  else missions.filter (fun m => mission_visible m player_id role family)

/-- Modelled from the wording of the specification (section 4.4): the
mission visibility gate as the spec states it, to be compared with the
source-derived filter. -/
def missionVisibleSpec (m : Mission) (player_id role family : String)
    (is_admin : Bool) : Prop :=
  is_admin = true ∨
  (m.visibility.getD "public" = "public" ∧
    (m.assigned_family.getD "all" = "all" ∨ m.assigned_family.getD "all" = family) ∧
    (m.assigned_role.getD "all" = "all" ∨ m.assigned_role.getD "all" = role)) ∨
  (m.visibility.getD "public" = "private" ∧ m.assigned_to = player_id) ∨
  (m.visibility.getD "public" = "family" ∧ m.assigned_family.getD "all" = family)

/-- The visibility row of the testable-properties example: a public
mission assigned to family Tattaglia and every role. -/
def tattagliaMission : Mission :=
  { mission_id := 1, title := "Collect Protection Money",
    visibility := some "public", assigned_family := some "Tattaglia",
    assigned_role := some "all", assigned_to := "", status := "available",
    day := 1 }

/-! ## Theorems -/

theorem floor_le_round_half_even (q : ℚ) : ⌊q⌋ ≤ round_half_even q := by
  simp only [round_half_even]
  split_ifs <;> omega

theorem round_half_even_le_floor_succ (q : ℚ) :
    round_half_even q ≤ ⌊q⌋ + 1 := by
  simp only [round_half_even]
  split_ifs <;> omega

theorem round_half_even_mono {q r : ℚ} (h : q ≤ r) :
    round_half_even q ≤ round_half_even r := by
  have hf : ⌊q⌋ ≤ ⌊r⌋ := Int.floor_mono h
  rcases lt_or_eq_of_le hf with hlt | heq
  · calc round_half_even q ≤ ⌊q⌋ + 1 := round_half_even_le_floor_succ q
      _ ≤ ⌊r⌋ := by omega
      _ ≤ round_half_even r := floor_le_round_half_even r
  · simp only [round_half_even, ← heq]
    have hfr : q - (⌊q⌋ : ℚ) ≤ r - (⌊q⌋ : ℚ) := by linarith
    split_ifs <;> first | omega | linarith

theorem pyRound2_mono {q r : ℚ} (h : q ≤ r) : pyRound2 q ≤ pyRound2 r := by
  unfold pyRound2
  have h1 : round_half_even (q * 100) ≤ round_half_even (r * 100) :=
    round_half_even_mono (by linarith)
  have h2 : ((round_half_even (q * 100) : ℤ) : ℚ) ≤
      ((round_half_even (r * 100) : ℤ) : ℚ) := by exact_mod_cast h1
  linarith

theorem calculate_individual_score_mono {b b2 ip ip2 : ℚ}
    {m m2 p p2 k k2 : ℤ} (hb : b ≤ b2) (hm : m ≤ m2) (hp : p ≤ p2)
    (hk : k ≤ k2) (hip : ip ≤ ip2) :
    calculate_individual_score b m p k ip ≤
      calculate_individual_score b2 m2 p2 k2 ip2 := by
  unfold calculate_individual_score
  apply pyRound2_mono
  have hm2 : (m : ℚ) ≤ m2 := by exact_mod_cast hm
  have hp2 : (p : ℚ) ≤ p2 := by exact_mod_cast hp
  have hk2 : (k : ℚ) ≤ k2 := by exact_mod_cast hk
  linarith

/-- C5: the score function returns
`0.4*balance + 40*missions_completed + 30*puzzles_solved + 100*kills_made
+ 0.2*influence_points` rounded to 2 decimal places; in particular
`score(0,0,0,0,0) = 0` and `score(100000,3,0,1,0) = 40220`, and a stat
dict with every field missing scores like all-zero arguments. -/
theorem C5_score_formula :
    (∀ (money : ℚ) (missions_completed puzzles_solved kills_made : ℤ)
        (influence_points : ℚ),
      calculate_individual_score money missions_completed puzzles_solved
          kills_made influence_points =
        pyRound2 (0.4 * money + 40 * (missions_completed : ℚ) +
          30 * (puzzles_solved : ℚ) + 100 * (kills_made : ℚ) +
          0.2 * influence_points)) ∧
    calculate_individual_score 0 0 0 0 0 = 0 ∧
    calculate_individual_score 100000 3 0 1 0 = 40220 ∧
    recalculate_player_score ⟨none, none, none, none, none⟩ =
      calculate_individual_score 0 0 0 0 0 := by
  refine ⟨?_, ?_, ?_, rfl⟩
  · intro money mc ps km ip
    unfold calculate_individual_score
    congr 1
    ring
  · norm_num [calculate_individual_score, pyRound2, round_half_even]
  · norm_num [calculate_individual_score, pyRound2, round_half_even]

/-- C6: on non-negative inputs the score function is monotonically
non-decreasing in each of its five arguments, the other four held
fixed, rounding included. -/
theorem C6_score_monotone :
    (∀ (b b2 ip : ℚ) (m p k : ℤ), 0 ≤ b → 0 ≤ ip → 0 ≤ m → 0 ≤ p → 0 ≤ k →
      b ≤ b2 →
      calculate_individual_score b m p k ip ≤
        calculate_individual_score b2 m p k ip) ∧
    (∀ (b ip : ℚ) (m m2 p k : ℤ), 0 ≤ b → 0 ≤ ip → 0 ≤ m → 0 ≤ p → 0 ≤ k →
      m ≤ m2 →
      calculate_individual_score b m p k ip ≤
        calculate_individual_score b m2 p k ip) ∧
    (∀ (b ip : ℚ) (m p p2 k : ℤ), 0 ≤ b → 0 ≤ ip → 0 ≤ m → 0 ≤ p → 0 ≤ k →
      p ≤ p2 →
      calculate_individual_score b m p k ip ≤
        calculate_individual_score b m p2 k ip) ∧
    (∀ (b ip : ℚ) (m p k k2 : ℤ), 0 ≤ b → 0 ≤ ip → 0 ≤ m → 0 ≤ p → 0 ≤ k →
      k ≤ k2 →
      calculate_individual_score b m p k ip ≤
        calculate_individual_score b m p k2 ip) ∧
    (∀ (b ip ip2 : ℚ) (m p k : ℤ), 0 ≤ b → 0 ≤ ip → 0 ≤ m → 0 ≤ p → 0 ≤ k →
      ip ≤ ip2 →
      calculate_individual_score b m p k ip ≤
        calculate_individual_score b m p k ip2) := by
  refine ⟨?_, ?_, ?_, ?_, ?_⟩ <;> intro a1 a2 a3 a4 a5 a6 h1 h2 h3 h4 h5 h6
  · exact calculate_individual_score_mono h6 le_rfl le_rfl le_rfl le_rfl
  · exact calculate_individual_score_mono le_rfl h6 le_rfl le_rfl le_rfl
  · exact calculate_individual_score_mono le_rfl le_rfl h6 le_rfl le_rfl
  · exact calculate_individual_score_mono le_rfl le_rfl le_rfl h6 le_rfl
  · exact calculate_individual_score_mono le_rfl le_rfl le_rfl le_rfl h6

/-- C6 witness: each monotonicity conjunct applied at concrete
non-negative inputs. -/
theorem C6_score_monotone_witness :
    calculate_individual_score 10 2 3 4 5 ≤
        calculate_individual_score 11 2 3 4 5 ∧
    calculate_individual_score 10 2 3 4 5 ≤
        calculate_individual_score 10 3 3 4 5 ∧
    calculate_individual_score 10 2 3 4 5 ≤
        calculate_individual_score 10 2 4 4 5 ∧
    calculate_individual_score 10 2 3 4 5 ≤
        calculate_individual_score 10 2 3 5 5 ∧
    calculate_individual_score 10 2 3 4 5 ≤
        calculate_individual_score 10 2 3 4 6 :=
  ⟨C6_score_monotone.1 10 11 5 2 3 4 (by norm_num) (by norm_num) (by norm_num)
      (by norm_num) (by norm_num) (by norm_num),
   C6_score_monotone.2.1 10 5 2 3 3 4 (by norm_num) (by norm_num) (by norm_num)
      (by norm_num) (by norm_num) (by norm_num),
   C6_score_monotone.2.2.1 10 5 2 3 4 4 (by norm_num) (by norm_num)
      (by norm_num) (by norm_num) (by norm_num) (by norm_num),
   C6_score_monotone.2.2.2.1 10 5 2 3 4 5 (by norm_num) (by norm_num)
      (by norm_num) (by norm_num) (by norm_num) (by norm_num),
   C6_score_monotone.2.2.2.2 10 5 6 2 3 4 (by norm_num) (by norm_num)
      (by norm_num) (by norm_num) (by norm_num) (by norm_num)⟩

/-- C1: validation with an expected kind rejects (401) every token whose
`type` claim is the other kind, accepts a matching `type`, and accepts a
token without the `type` claim for either expected kind; bearer-token
validation expects kind `access`; issued access and refresh tokens carry
their respective `type` claims. -/
theorem C1_token_type_check :
    (∀ pid em r f : Option String,
      decode_token ⟨pid, em, r, f, some "refresh"⟩ (some "access") =
        .err 401 "Invalid token type. Expected access token") ∧
    (∀ pid em r f : Option String,
      decode_token ⟨pid, em, r, f, some "access"⟩ (some "refresh") =
        .err 401 "Invalid token type. Expected refresh token") ∧
    (∀ pid em r f : Option String,
      decode_token ⟨pid, em, r, f, some "access"⟩ (some "access") =
        .ok ⟨pid, em, r, f, some "access"⟩) ∧
    (∀ pid em r f : Option String,
      decode_token ⟨pid, em, r, f, some "refresh"⟩ (some "refresh") =
        .ok ⟨pid, em, r, f, some "refresh"⟩) ∧
    (∀ (pid em r f : Option String) (expected : String),
      decode_token ⟨pid, em, r, f, none⟩ (some expected) =
        .ok ⟨pid, em, r, f, none⟩) ∧
    (∀ payload : TokenPayload,
      get_current_user_from_token payload = decode_token payload (some "access")) ∧
    (∀ data : TokenPayload,
      (create_access_token data).type = some "access" ∧
      (create_refresh_token data).type = some "refresh") := by
  refine ⟨fun pid em r f => rfl, fun pid em r f => rfl, fun pid em r f => rfl,
    fun pid em r f => rfl, ?_, fun payload => rfl, fun data => ⟨rfl, rfl⟩⟩
  intro pid em r f expected
  simp [decode_token, strTruthy]

/-- C7: the market-open predicate holds exactly on the civil-time window
[23:11:00, 24:00:00) ∪ [00:00:00, 00:11:00) — open at 23:11:00 and
00:10:59, closed at 23:10:59 and 00:11:00 — and while it is false every
purchase is rejected with the market-closed 403 although offers remain
listable. -/
theorem C7_market_gate :
    (∀ t : Time, t.valid →
      (is_market_open t = true ↔
        83460 ≤ t.secondsOfDay ∨ t.secondsOfDay < 660)) ∧
    is_market_open ⟨23, 11, 0⟩ = true ∧
    is_market_open ⟨0, 10, 59⟩ = true ∧
    is_market_open ⟨23, 10, 59⟩ = false ∧
    is_market_open ⟨0, 11, 0⟩ = false ∧
    (∀ (t : Time) (player : Player) (offers : List Offer) (offer_id : ℤ),
      is_market_open t = false →
      purchase_offer t player offers offer_id =
        .err 403 "Black Market is closed. Opens at 11:11 PM IST") ∧
    (∀ (t : Time) (offers : List Offer),
      (get_offers t offers).offers.length = offers.length ∧
      (get_offers t offers).market_open = is_market_open t) := by
  refine ⟨?_, by decide, by decide, by decide, by decide, ?_, ?_⟩
  · rintro t ⟨h1, h2, h3⟩
    simp only [is_market_open, Time.secondsOfDay, Bool.or_eq_true,
      Bool.and_eq_true, beq_iff_eq, decide_eq_true_eq]
    omega
  · intro t player offers offer_id h
    simp [purchase_offer, h]
  · intro t offers
    exact ⟨by simp [get_offers], rfl⟩

/-- C7 witness: the window characterisation applied at 23:11:00, and the
market-closed purchase rejection applied at noon with a concrete player
and offer list. -/
theorem C7_market_gate_witness :
    (Time.valid ⟨23, 11, 0⟩ ∧
      (is_market_open ⟨23, 11, 0⟩ = true ↔
        83460 ≤ Time.secondsOfDay ⟨23, 11, 0⟩ ∨
          Time.secondsOfDay ⟨23, 11, 0⟩ < 660)) ∧
    (is_market_open ⟨12, 0, 0⟩ = false ∧
      purchase_offer ⟨12, 0, 0⟩
        ⟨"p1", "Sonny", "sonny@corleone.it", "pw", "Capo", "Capo", "Corleone",
          some (.boolean true), 100, "TRUE", [], 0, 0, 0, 0, 0, 0⟩
        [⟨1, "Vault Key", "", 10, 1⟩] 1 =
        .err 403 "Black Market is closed. Opens at 11:11 PM IST") :=
  ⟨⟨by decide, C7_market_gate.1 ⟨23, 11, 0⟩ (by decide)⟩,
   by decide,
   C7_market_gate.2.2.2.2.2.1 ⟨12, 0, 0⟩
     ⟨"p1", "Sonny", "sonny@corleone.it", "pw", "Capo", "Capo", "Corleone",
       some (.boolean true), 100, "TRUE", [], 0, 0, 0, 0, 0, 0⟩
     [⟨1, "Vault Key", "", 10, 1⟩] 1 (by decide)⟩

theorem mission_visible_iff (m : Mission) (player_id role family : String) :
    mission_visible m player_id role family = true ↔
      (m.visibility.getD "public" = "public" ∧
        (m.assigned_family.getD "all" = "all" ∨
          m.assigned_family.getD "all" = family) ∧
        (m.assigned_role.getD "all" = "all" ∨
          m.assigned_role.getD "all" = role)) ∨
      (m.visibility.getD "public" = "private" ∧ m.assigned_to = player_id) ∨
      (m.visibility.getD "public" = "family" ∧
        m.assigned_family.getD "all" = family) := by
  unfold mission_visible
  dsimp only
  split_ifs with h1 h2 h3
  · simp only [beq_iff_eq] at h1
    simp [h1, Bool.and_eq_true, Bool.or_eq_true, beq_iff_eq]
  · simp only [beq_iff_eq] at h2
    simp only [Bool.not_eq_true, beq_eq_false_iff_ne] at h1
    simp [h1, h2, beq_iff_eq]
  · simp only [beq_iff_eq] at h3
    simp only [Bool.not_eq_true, beq_eq_false_iff_ne] at h1 h2
    simp [h1, h2, h3, beq_iff_eq]
  · simp only [Bool.not_eq_true, beq_eq_false_iff_ne] at h1 h2 h3
    simp [h1, h2, h3]

/-- C8: the mission list a player sees is exactly the missions passing
the spec visibility gate (admins see everything; public missions match
on family and role with "all" wildcards; private missions match the
assigned player; family missions match the family, role ignored); the
Tattaglia/Barzini example behaves as specified. -/
theorem C8_mission_visibility :
    (∀ (missions : List Mission) (player_id role family : String)
        (is_admin : Bool) (m : Mission),
      m ∈ get_missions_for_player missions player_id role family is_admin ↔
        m ∈ missions ∧ missionVisibleSpec m player_id role family is_admin) ∧
    (∀ player_id role : String,
      get_missions_for_player [tattagliaMission] player_id role "Tattaglia"
        false = [tattagliaMission]) ∧
    (∀ player_id role : String,
      get_missions_for_player [tattagliaMission] player_id role "Barzini"
        false = []) := by
  refine ⟨?_, ?_, ?_⟩
  · intro missions player_id role family is_admin m
    unfold get_missions_for_player missionVisibleSpec
    cases is_admin with
    | true => simp
    | false =>
      simp only [Bool.false_eq_true, if_false, List.mem_filter,
        mission_visible_iff, false_or]
  · intro player_id role
    simp [get_missions_for_player, mission_visible, tattagliaMission]
  · intro player_id role
    simp [get_missions_for_player, mission_visible, tattagliaMission]

theorem applyUpdates_email (p : Player) (u : FieldUpdates) :
    (applyUpdates p u).email = p.email := rfl

theorem get_player_by_email_eq {db : List Player} {e : String} {p : Player}
    (h : get_player_by_email db e = some p) : p.email = e := by
  have h2 := List.find?_some h
  simpa using h2

theorem get_player_by_email_update (db : List Player) (e : String)
    (u : FieldUpdates) :
    get_player_by_email (update_player_by_email db e u) e =
      (get_player_by_email db e).map (fun p => applyUpdates p u) := by
  induction db with
  | nil => rfl
  | cons p rest ih =>
    by_cases h : (p.email == e) = true
    · simp only [update_player_by_email, if_pos h, get_player_by_email]
      rw [List.find?_cons_of_pos _ (by simpa [applyUpdates_email] using h),
        show List.find? (fun q => q.email == e) (p :: rest) = some p from
          List.find?_cons_of_pos _ h]
      rfl
    · simp only [update_player_by_email, if_neg h, get_player_by_email]
      rw [show List.find? (fun q => q.email == e)
            (p :: update_player_by_email rest e u) =
          List.find? (fun q => q.email == e) (update_player_by_email rest e u)
          from List.find?_cons_of_neg _ h,
        show List.find? (fun q => q.email == e) (p :: rest) =
          List.find? (fun q => q.email == e) rest from
          List.find?_cons_of_neg _ h]
      exact ih

/-- A sample unclaimed row (assigned a role by the admin, no player_id
yet), used to instantiate the login theorems. -/
def soniaRow : Player :=
  { player_id := "", name := "Sonia", email := "sonia@tattaglia.it",
    password := "pw1", role := "", assigned_role := "Capo",
    family := "Tattaglia", alive := some (.boolean true), balance := 10,
    registered := "", items := [], missions_completed := 0,
    puzzles_solved := 0, kills_made := 0, influence_points := 0,
    individual_score := 0, trades_completed := 0 }

/-- A sample claimed row (player_id set, role confirmed), used to
instantiate the login, transfer and verification theorems. -/
def mikeRow : Player :=
  { player_id := "uuid-mike", name := "Mike", email := "mike@corleone.it",
    password := "pw2", role := "Don", assigned_role := "Don",
    family := "Corleone", alive := some (.boolean true), balance := 50,
    registered := "TRUE", items := [], missions_completed := 0,
    puzzles_solved := 0, kills_made := 0, influence_points := 0,
    individual_score := 0, trades_completed := 0 }

/-- C3: a first login (assigned role present, no player_id) with the
correct password and no role supplied gets the non-error first-login
response: `is_first_login = true`, the assigned role echoed back, an
empty access token and no refresh token, and the sheet unchanged. -/
theorem C3_first_login_prompt (db : List Player) (new_uuid : String)
    (req : LoginRequest) (e : String) (player : Player)
    (he : req.email = some e) (hne : e ≠ "") (hadmin : e ≠ ADMIN_USERNAME)
    (hfound : get_player_by_email db e = some player)
    (hpw : player.password = req.password)
    (halive : login_alive_reject player = false)
    (hassigned : player.assigned_role ≠ "")
    (hunclaimed : player.player_id = "")
    (hnorole : strTruthy req.role = false) :
    login db new_uuid req =
      (.ok { access_token := .empty, refresh_token := none, player := [],
             is_first_login := true,
             assigned_role := some player.assigned_role }, db) := by
  have h1 : strTruthy (some e) = true := by simp [strTruthy, hne]
  have h2 : (e == ADMIN_USERNAME) = false := by simp [hadmin]
  have h3 : (player.password != req.password) = false := by simp [hpw]
  have h6 : (player.assigned_role == "") = false := by simp [hassigned]
  have h7 : (player.player_id == "") = true := by simp [hunclaimed]
  simp [login, login_found, login_claim, he, h1, h2, hfound, h3, halive,
    h6, h7, hnorole]

/-- C3 witness: the first-login prompt at a concrete one-row sheet. -/
theorem C3_first_login_prompt_witness :
    login [soniaRow] "uuid-1"
        { email := some "sonia@tattaglia.it", username := none,
          password := "pw1", role := none } =
      (.ok { access_token := .empty, refresh_token := none, player := [],
             is_first_login := true, assigned_role := some "Capo" },
       [soniaRow]) :=
  C3_first_login_prompt [soniaRow] "uuid-1"
    { email := some "sonia@tattaglia.it", username := none,
      password := "pw1", role := none }
    "sonia@tattaglia.it" soniaRow rfl (by decide) (by decide) rfl rfl rfl
    (by decide) rfl rfl

/-- C4: a first login (assigned role present, empty player_id) with the
correct password and a supplied role fails with the 403 role-mismatch
error and an unchanged sheet when the role differs from the assigned
role; when it matches, the fresh identifier is persisted as player_id,
role is set to the assigned role, the row is marked registered, and a
signed access/refresh token pair is issued for the updated row. -/
theorem C4_first_login_claim (db : List Player) (new_uuid : String)
    (req : LoginRequest) (e r : String) (player : Player)
    (he : req.email = some e) (hne : e ≠ "") (hadmin : e ≠ ADMIN_USERNAME)
    (hfound : get_player_by_email db e = some player)
    (hpw : player.password = req.password)
    (halive : login_alive_reject player = false)
    (hassigned : player.assigned_role ≠ "")
    (hunclaimed : player.player_id = "")
    (hrole : req.role = some r) (hr : r ≠ "") :
    (r ≠ player.assigned_role →
      login db new_uuid req =
        (.err 403 ("You are assigned the role " ++ player.assigned_role ++
          ". Please select the correct role."), db)) ∧
    (r = player.assigned_role →
      login db new_uuid req =
        (.ok { access_token := .signed
                 { player_id := some new_uuid, email := some e,
                   role := some player.assigned_role,
                   family := some player.family, type := some "access" },
               refresh_token := some (.signed
                 { player_id := some new_uuid, email := some e,
                   role := some player.assigned_role,
                   family := some player.family, type := some "refresh" }),
               player := (Player.toDict
                   { player with
                     player_id := new_uuid,
                     role := player.assigned_role,
                     registered := "TRUE" }).filter
                 (fun kv => kv.1 != "password"),
               is_first_login := false, assigned_role := none },
         update_player_by_email db e
           { noUpdates with
             player_id := some new_uuid,
             role := some player.assigned_role,
             registered := some "TRUE" }) ∧
      get_player_by_email
          (update_player_by_email db e
            { noUpdates with
              player_id := some new_uuid,
              role := some player.assigned_role,
              registered := some "TRUE" }) e =
        some { player with
               player_id := new_uuid,
               role := player.assigned_role,
               registered := "TRUE" }) := by
  have h1 : strTruthy (some e) = true := by simp [strTruthy, hne]
  have h2 : (e == ADMIN_USERNAME) = false := by simp [hadmin]
  have h3 : (player.password != req.password) = false := by simp [hpw]
  have h6 : (player.assigned_role == "") = false := by simp [hassigned]
  have h7 : (player.player_id == "") = true := by simp [hunclaimed]
  have h8 : strTruthy (some r) = true := by simp [strTruthy, hr]
  have hemail : player.email = e := get_player_by_email_eq hfound
  have hupd : get_player_by_email
      (update_player_by_email db e
        { noUpdates with
          player_id := some new_uuid,
          role := some player.assigned_role,
          registered := some "TRUE" }) e =
      some { player with
             player_id := new_uuid,
             role := player.assigned_role,
             registered := "TRUE" } := by
    rw [get_player_by_email_update, hfound]
    rfl
  constructor
  · intro hmis
    have h9 : (some r != some player.assigned_role) = true := by simp [hmis]
    simp [login, login_found, login_claim, he, h1, h2, hfound, h3, halive,
      h6, h7, hrole, h8, h9]
  · intro hmatch
    have h9 : (some r != some player.assigned_role) = false := by simp [hmatch]
    refine ⟨?_, hupd⟩
    simp only [login, login_found, login_claim, he, h1, if_true,
      Option.getD_some, h2, Bool.false_eq_true, if_false, hfound, h3, halive,
      h6, h7, hrole, h8, h9, Bool.not_false, Bool.not_true, if_true, hupd,
      issue_login_response, create_access_token, create_refresh_token]
    have hemail2 : ({ player with
        player_id := new_uuid,
        role := player.assigned_role,
        registered := "TRUE" } : Player).email = e := hemail
    simp [hemail2, hne]
    exact fun _ => hemail

/-- C4 witness: the role-mismatch rejection and the claimed-identity
persistence, both at a concrete one-row sheet. -/
theorem C4_first_login_claim_witness :
    login [soniaRow] "uuid-1"
        { email := some "sonia@tattaglia.it", username := none,
          password := "pw1", role := some "Don" } =
      (.err 403 ("You are assigned the role " ++ "Capo" ++
        ". Please select the correct role."), [soniaRow]) ∧
    get_player_by_email
        (update_player_by_email [soniaRow] "sonia@tattaglia.it"
          { noUpdates with
            player_id := some "uuid-1",
            role := some "Capo",
            registered := some "TRUE" }) "sonia@tattaglia.it" =
      some { soniaRow with
             player_id := "uuid-1", role := "Capo", registered := "TRUE" } :=
  ⟨(C4_first_login_claim [soniaRow] "uuid-1"
      { email := some "sonia@tattaglia.it", username := none,
        password := "pw1", role := some "Don" }
      "sonia@tattaglia.it" "Don" soniaRow rfl (by decide) (by decide) rfl rfl
      rfl (by decide) rfl rfl (by decide)).1 (by decide),
   ((C4_first_login_claim [soniaRow] "uuid-1"
      { email := some "sonia@tattaglia.it", username := none,
        password := "pw1", role := some "Capo" }
      "sonia@tattaglia.it" "Capo" soniaRow rfl (by decide) (by decide) rfl rfl
      rfl (by decide) rfl rfl (by decide)).2 rfl).2⟩

/-- C9: a transfer whose amount exceeds the sender balance — with every
earlier gate passing — fails with the 400 insufficient-funds error and
returns the sheet unchanged, so neither balance moves. -/
theorem C9_transfer_insufficient (db : List Player) (sid rid : String)
    (amount : ℚ) (sender recipient : Player)
    (hpos : 0 < amount)
    (hs : get_player_by_id db sid = some sender)
    (hsa : alive_truthy sender = true)
    (hr : get_player_by_id db rid = some recipient)
    (hra : alive_truthy recipient = true)
    (hfunds : sender.balance < amount) :
    transfer_money db sid rid amount = (.err 400 "Insufficient funds", db) := by
  have h0 : ¬(amount ≤ 0) := not_le.mpr hpos
  simp [transfer_money, h0, hs, hsa, hr, hra, hfunds]

/-- C9 witness: a 60-unit transfer against a 50-unit balance at a
concrete two-row sheet. -/
theorem C9_transfer_insufficient_witness :
    transfer_money
        [mikeRow,
         ⟨"uuid-tom", "Tom", "tom@corleone.it", "pw3", "Consigliere",
           "Consigliere", "Corleone", some (.boolean true), 20, "TRUE", [],
           0, 0, 0, 0, 0, 0⟩]
        "uuid-mike" "uuid-tom" 60 =
      (.err 400 "Insufficient funds",
       [mikeRow,
        ⟨"uuid-tom", "Tom", "tom@corleone.it", "pw3", "Consigliere",
          "Consigliere", "Corleone", some (.boolean true), 20, "TRUE", [],
          0, 0, 0, 0, 0, 0⟩]) :=
  C9_transfer_insufficient _ "uuid-mike" "uuid-tom" 60 mikeRow
    ⟨"uuid-tom", "Tom", "tom@corleone.it", "pw3", "Consigliere",
      "Consigliere", "Corleone", some (.boolean true), 20, "TRUE", [],
      0, 0, 0, 0, 0, 0⟩
    (by norm_num) rfl rfl rfl rfl (by norm_num [mikeRow])

theorem password_not_mem_stripped (p : Player) :
    "password" ∉
      (p.toDict.filter (fun kv => kv.1 != "password")).map Prod.fst := by
  intro h
  simp only [List.mem_map] at h
  obtain ⟨kv, hmem, hfst⟩ := h
  have h2 := List.of_mem_filter hmem
  simp [hfst] at h2

theorem password_not_mem_admin :
    "password" ∉ admin_player.map Prod.fst := by decide

theorem login_admin_ok_player {db : List Player} {req : LoginRequest}
    {resp : LoginResponse} {db2 : List Player}
    (heq : login_admin db req = (.ok resp, db2)) :
    "password" ∉ resp.player.map Prod.fst := by
  unfold login_admin at heq
  try dsimp only at heq
  repeat' split at heq
  all_goals
    simp only [Prod.mk.injEq, LoginResult.ok.injEq, reduceCtorEq,
      false_and] at heq
  obtain ⟨h1, h2⟩ := heq
  subst h1
  exact password_not_mem_admin

theorem login_claim_ok_player {db : List Player} {new_uuid : String}
    {req : LoginRequest} {ue : String} {player : Player}
    {resp : LoginResponse} {db2 : List Player}
    (heq : login_claim db new_uuid req ue player = (.ok resp, db2)) :
    "password" ∉ resp.player.map Prod.fst := by
  unfold login_claim issue_login_response at heq
  try dsimp only at heq
  repeat' split at heq
  all_goals
    simp only [Prod.mk.injEq, LoginResult.ok.injEq, reduceCtorEq,
      false_and] at heq
  all_goals obtain ⟨h1, h2⟩ := heq
  all_goals subst h1
  all_goals first
    | simp
    | exact password_not_mem_stripped _

theorem login_found_ok_player {db : List Player} {new_uuid : String}
    {req : LoginRequest} {ue : String} {player : Player}
    {resp : LoginResponse} {db2 : List Player}
    (heq : login_found db new_uuid req ue player = (.ok resp, db2)) :
    "password" ∉ resp.player.map Prod.fst := by
  unfold login_found at heq
  try dsimp only at heq
  repeat' split at heq
  all_goals first
    | exact login_claim_ok_player heq
    | (simp only [Prod.mk.injEq, LoginResult.ok.injEq, reduceCtorEq,
        false_and, issue_login_response] at heq)
  all_goals obtain ⟨h1, h2⟩ := heq
  all_goals subst h1
  all_goals exact password_not_mem_stripped _

/-- C10: every successful login and every successful token verification
that returns a player snapshot strips the password key from the returned
player dict. -/
theorem C10_no_password_leak :
    (∀ (db : List Player) (new_uuid : String) (req : LoginRequest)
        (resp : LoginResponse) (db2 : List Player),
      login db new_uuid req = (.ok resp, db2) →
      "password" ∉ resp.player.map Prod.fst) ∧
    (∀ (db : List Player) (payload : TokenPayload)
        (d : List (String × Value)),
      verify_token db payload = .okPlayer d →
      "password" ∉ d.map Prod.fst) := by
  constructor
  · intro db new_uuid req resp db2 heq
    unfold login at heq
    try dsimp only at heq
    repeat' split at heq
    all_goals first
      | exact login_admin_ok_player heq
      | exact login_found_ok_player heq
      | (simp only [Prod.mk.injEq, reduceCtorEq, false_and] at heq)
  · intro db payload d heq
    unfold verify_token at heq
    try dsimp only at heq
    repeat' split at heq
    all_goals
      simp only [VerifyResult.okPlayer.injEq, reduceCtorEq] at heq
    subst heq
    exact password_not_mem_stripped _

/-- The response of the sample returning login of the C10 witness. -/
def mikeLoginResp : LoginResponse :=
  { access_token := .signed
      { player_id := some "uuid-mike", email := some "mike@corleone.it",
        role := some "Don", family := some "Corleone", type := some "access" },
    refresh_token := some (.signed
      { player_id := some "uuid-mike", email := some "mike@corleone.it",
        role := some "Don", family := some "Corleone",
        type := some "refresh" }),
    player := mikeRow.toDict.filter (fun kv => kv.1 != "password"),
    is_first_login := false,
    assigned_role := none }

/-- C10 witness: a concrete successful returning login and a concrete
successful verification, both with password-free player snapshots. -/
theorem C10_no_password_leak_witness :
    login [mikeRow] "u1"
        { email := some "mike@corleone.it", username := none,
          password := "pw2", role := some "Don" } =
      (.ok mikeLoginResp, [mikeRow]) ∧
    "password" ∉ mikeLoginResp.player.map Prod.fst ∧
    verify_token [mikeRow]
        { player_id := some "uuid-mike", email := some "mike@corleone.it",
          role := some "Don", family := some "Corleone",
          type := some "access" } =
      .okPlayer (mikeRow.toDict.filter (fun kv => kv.1 != "password")) ∧
    "password" ∉
      (mikeRow.toDict.filter (fun kv => kv.1 != "password")).map Prod.fst := by
  have hl : login [mikeRow] "u1"
      { email := some "mike@corleone.it", username := none,
        password := "pw2", role := some "Don" } =
      (.ok mikeLoginResp, [mikeRow]) := rfl
  have hv : verify_token [mikeRow]
      { player_id := some "uuid-mike", email := some "mike@corleone.it",
        role := some "Don", family := some "Corleone",
        type := some "access" } =
      .okPlayer (mikeRow.toDict.filter (fun kv => kv.1 != "password")) := rfl
  exact ⟨hl, C10_no_password_leak.1 _ _ _ _ _ hl, hv,
    C10_no_password_leak.2 _ _ _ hv⟩

/-- A sample eliminated row whose alive cell is the string "FALSE". -/
def luigiRowStr : Player :=
  { player_id := "uuid-luigi", name := "Luigi", email := "luigi@tattaglia.it",
    password := "pw4", role := "Soldier", assigned_role := "Soldier",
    family := "Tattaglia", alive := some (.str "FALSE"), balance := 100,
    registered := "TRUE", items := [], missions_completed := 0,
    puzzles_solved := 0, kills_made := 0, influence_points := 0,
    individual_score := 0, trades_completed := 0 }

/-- A sample eliminated row whose alive cell is the native boolean
false. -/
def deadBoolRow : Player :=
  { player_id := "uuid-fredo", name := "Fredo", email := "fredo@corleone.it",
    password := "pw5", role := "Soldier", assigned_role := "Soldier",
    family := "Corleone", alive := some (.boolean false), balance := 100,
    registered := "TRUE", items := [], missions_completed := 0,
    puzzles_solved := 0, kills_made := 0, influence_points := 0,
    individual_score := 0, trades_completed := 0 }

theorem purchase_no_dead_reject {t : Time} {player : Player}
    {offers : List Offer} {offer_id : ℤ}
    (hopen : is_market_open t = true) (ha : alive_truthy player = true) :
    purchase_offer t player offers offer_id ≠
      .err 403 "Dead players cannot make purchases" := by
  simp only [purchase_offer, hopen, ha, Bool.not_true, Bool.false_eq_true,
    if_false]
  cases hfind : offers.find? (fun o => o.offer_id == offer_id) with
  | none => simp
  | some offer =>
    dsimp only
    split_ifs <;> simp

/-- C2 counterexample: an eliminated player whose alive cell is the
string "FALSE" gets the generic 401 invalid-credentials error — not the
eliminated error — when the supplied password is wrong (the password
check runs first), and the blackmarket purchase aliveness gate does not
reject that player at all (the string "FALSE" is truthy in
`player.get("alive", True)`). -/
theorem C2_eliminated_counterexample :
    login [luigiRowStr] "u1"
        { email := some "luigi@tattaglia.it", username := none,
          password := "wrong-pw", role := some "Soldier" } =
      (.err 401 "Invalid email or password", [luigiRowStr]) ∧
    (login [luigiRowStr] "u1"
        { email := some "luigi@tattaglia.it", username := none,
          password := "wrong-pw", role := some "Soldier" }).1 ≠
      .err 403 "Your character has been eliminated from the game" ∧
    alive_truthy luigiRowStr = true ∧
    purchase_offer ⟨23, 30, 0⟩ luigiRowStr [⟨1, "Vault Key", "", 10, 5⟩] 1 ≠
      .err 403 "Dead players cannot make purchases" := by
  exact ⟨rfl, by decide, rfl, purchase_no_dead_reject (by decide) rfl⟩

/-- C2 amended: an eliminated player (string "FALSE" or native false
alive cell) whose password is supplied correctly is rejected at login
with the distinct eliminated 403 (a wrong password yields the generic
credentials error instead, as the password check precedes the aliveness
check); blackmarket purchase rejects a player whose alive cell is the
native boolean false, while a string "FALSE" alive cell passes the
purchase aliveness gate un-rejected. -/
theorem C2_eliminated_amended :
    (∀ (db : List Player) (new_uuid : String) (req : LoginRequest)
        (e : String) (player : Player),
      req.email = some e → e ≠ "" → e ≠ ADMIN_USERNAME →
      get_player_by_email db e = some player →
      player.password = req.password →
      (player.alive = some (.str "FALSE") ∨
        player.alive = some (.boolean false)) →
      login db new_uuid req =
        (.err 403 "Your character has been eliminated from the game", db)) ∧
    (∀ (t : Time) (player : Player) (offers : List Offer) (offer_id : ℤ),
      is_market_open t = true →
      player.alive = some (.boolean false) →
      purchase_offer t player offers offer_id =
        .err 403 "Dead players cannot make purchases") ∧
    (∀ (t : Time) (player : Player) (offers : List Offer) (offer_id : ℤ),
      is_market_open t = true →
      player.alive = some (.str "FALSE") →
      purchase_offer t player offers offer_id ≠
        .err 403 "Dead players cannot make purchases") := by
  refine ⟨?_, ?_, ?_⟩
  · intro db new_uuid req e player he hne hadmin hfound hpw hdead
    have h1 : strTruthy (some e) = true := by simp [strTruthy, hne]
    have h2 : (e == ADMIN_USERNAME) = false := by simp [hadmin]
    have h3 : (player.password != req.password) = false := by simp [hpw]
    have halive : login_alive_reject player = true := by
      rcases hdead with h | h <;>
        simp [login_alive_reject, h, alive_truthy, Value.truthy]
    simp [login, login_found, he, h1, h2, hfound, h3, halive]
  · intro t player offers offer_id hopen hdead
    have ha : alive_truthy player = false := by
      simp [alive_truthy, hdead, Value.truthy]
    simp [purchase_offer, hopen, ha]
  · intro t player offers offer_id hopen halive
    have ha : alive_truthy player = true := by
      simp [alive_truthy, halive, Value.truthy]
    exact purchase_no_dead_reject hopen ha

/-- C2 amended witness: the eliminated 403 at a correct-password login
for the string encoding, the purchase rejection for the native-false
encoding, and the purchase non-rejection for the string encoding, at
concrete rows. -/
theorem C2_eliminated_amended_witness :
    login [luigiRowStr] "u1"
        { email := some "luigi@tattaglia.it", username := none,
          password := "pw4", role := some "Soldier" } =
      (.err 403 "Your character has been eliminated from the game",
       [luigiRowStr]) ∧
    purchase_offer ⟨23, 30, 0⟩ deadBoolRow [] 1 =
      .err 403 "Dead players cannot make purchases" ∧
    purchase_offer ⟨23, 30, 0⟩ luigiRowStr [] 1 ≠
      .err 403 "Dead players cannot make purchases" :=
  ⟨C2_eliminated_amended.1 [luigiRowStr] "u1"
      { email := some "luigi@tattaglia.it", username := none,
        password := "pw4", role := some "Soldier" }
      "luigi@tattaglia.it" luigiRowStr rfl (by decide) (by decide) rfl rfl
      (Or.inl rfl),
   C2_eliminated_amended.2.1 ⟨23, 30, 0⟩ deadBoolRow [] 1 (by decide) rfl,
   C2_eliminated_amended.2.2 ⟨23, 30, 0⟩ luigiRowStr [] 1 (by decide) rfl⟩

end Godfather
